import Mathlib

/-!
Shallow embedding of the `floating-duration` crate (`src/lib.rs`).

The crate converts a `std::time::Duration` (whole seconds plus sub-second
nanoseconds) into fractional `f64` counts of seconds, milliseconds and
microseconds, and formats a duration with automatic unit selection.

`f64` values are modelled as exact rationals (`ℚ`).  Rust's default
floating-point `Display` is modelled by `displayF64` for the values the
formatter actually prints, which are always an integral number of
thousandths: the exact decimal expansion with trailing zeros and a bare
decimal point dropped.  An integer-only mirror `fmtNat` of the formatter
is proved equal to the embedding and used to evaluate it on concrete
inputs.
-/

/-- Model of `std::time::Duration` as the crate reads it: `as_secs()`
returns the whole-second component and `subsec_nanos()` the sub-second
nanosecond component (a duration is valid when `subsec_nanos < 10^9`). -/
structure Duration where
  as_secs : Nat
  subsec_nanos : Nat
deriving DecidableEq

/-- `as_fractional_secs` from `impl<T: Borrow<Duration>> TimeAsFloat for T`
(`src/lib.rs`): `dur.as_secs() as f64 + dur.subsec_nanos() as f64 / 1_000_000_000.0`. -/
def as_fractional_secs (d : Duration) : ℚ :=
  (d.as_secs : ℚ) + (d.subsec_nanos : ℚ) / 1000000000

/-- `as_fractional_millis` (`src/lib.rs`):
`dur.as_secs() as f64 * 1_000.0 + dur.subsec_nanos() as f64 / 1_000_000.0`. -/
def as_fractional_millis (d : Duration) : ℚ :=
  (d.as_secs : ℚ) * 1000 + (d.subsec_nanos : ℚ) / 1000000

/-- `as_fractional_micros` (`src/lib.rs`):
`dur.as_secs() as f64 * 1_000_000.0 + dur.subsec_nanos() as f64 / 1_000.0`. -/
def as_fractional_micros (d : Duration) : ℚ :=
  (d.as_secs : ℚ) * 1000000 + (d.subsec_nanos : ℚ) / 1000

/-- Rust's `f64::round`: round to the nearest integer, ties away from zero. -/
def roundTiesAway (q : ℚ) : Int :=
  if 0 ≤ q then ⌊q + 1 / 2⌋ else -⌊-q + 1 / 2⌋

/-- `round_3_decimals` (`src/lib.rs`): `(1000. * x).round() / 1000.`. -/
def round_3_decimals (x : ℚ) : ℚ :=
  (roundTiesAway (1000 * x) : ℚ) / 1000

/-- Left-pad the decimal digits of `n` (with `0 ≤ n < 1000`) to width 3. -/
def pad3 (n : Int) : String :=
  (if n < 10 then "00" else if n < 100 then "0" else "") ++ toString n

/-- Drop trailing `0` characters. -/
def stripZeros (s : String) : String :=
  String.mk ((s.toList.reverse.dropWhile (fun c => c == '0')).reverse)

/-- Model of Rust's default `Display` for a nonnegative `f64` that holds an
integral number of thousandths (the only values `TimeFormat` prints): the
exact decimal expansion, with trailing zeros and a bare decimal point
dropped (`2.0` renders as `"2"`, `461.930` as `"461.93"`). -/
def displayF64 (q : ℚ) : String :=
  if ⌊1000 * q⌋ % 1000 = 0 then toString (⌊1000 * q⌋ / 1000)
  else toString (⌊1000 * q⌋ / 1000) ++ "." ++ stripZeros (pad3 (⌊1000 * q⌋ % 1000))

/-- The `TimeFormat` formatting newtype (`src/lib.rs`): wraps a duration to
give it the crate's `Display` behaviour. -/
structure TimeFormat where
  dur : Duration

/-- `impl Display for TimeFormat`'s `fmt` (`src/lib.rs`), as the string the
single `write!` of the taken branch produces; `alternate` is the `{:#}`
flag selecting full unit names. -/
def TimeFormat.fmt (t : TimeFormat) (alternate : Bool) : String :=
  if t.dur.as_secs > 0 then
    if !alternate then displayF64 (round_3_decimals (as_fractional_secs t.dur)) ++ "s"
    else displayF64 (round_3_decimals (as_fractional_secs t.dur)) ++ " seconds"
  else if t.dur.subsec_nanos > 1000000 then
    if !alternate then displayF64 (round_3_decimals (as_fractional_millis t.dur)) ++ "ms"
    else displayF64 (round_3_decimals (as_fractional_millis t.dur)) ++ " milliseconds"
  else if t.dur.subsec_nanos > 1000 then
    if !alternate then displayF64 (round_3_decimals (as_fractional_micros t.dur)) ++ "µs"
    else displayF64 (round_3_decimals (as_fractional_micros t.dur)) ++ " microseconds"
  else
    if !alternate then toString t.dur.subsec_nanos ++ "ns"
    else toString t.dur.subsec_nanos ++ " nanoseconds"

/-- `impl Display for TimeFormat`'s `fmt` with the sink made explicit: each
branch performs exactly one `write!` into the caller-supplied sink and
returns that write's result unchanged (`Except.error ()` models
`fmt::Error`). -/
def TimeFormat.fmtTo (t : TimeFormat) (alternate : Bool)
    (write : String → Except Unit Unit) : Except Unit Unit :=
  if t.dur.as_secs > 0 then
    if !alternate then write (displayF64 (round_3_decimals (as_fractional_secs t.dur)) ++ "s")
    else write (displayF64 (round_3_decimals (as_fractional_secs t.dur)) ++ " seconds")
  else if t.dur.subsec_nanos > 1000000 then
    if !alternate then write (displayF64 (round_3_decimals (as_fractional_millis t.dur)) ++ "ms")
    else write (displayF64 (round_3_decimals (as_fractional_millis t.dur)) ++ " milliseconds")
  else if t.dur.subsec_nanos > 1000 then
    if !alternate then write (displayF64 (round_3_decimals (as_fractional_micros t.dur)) ++ "µs")
    else write (displayF64 (round_3_decimals (as_fractional_micros t.dur)) ++ " microseconds")
  else
    if !alternate then write (toString t.dur.subsec_nanos ++ "ns")
    else write (toString t.dur.subsec_nanos ++ " nanoseconds")

/-- The four units the formatter can select. -/
inductive FmtBranch
  | secs
  | millis
  | micros
  | nanos
deriving DecidableEq

/-- Which branch of `TimeFormat`'s `fmt` runs for a given duration, read off
the guard structure of `src/lib.rs`. -/
def selectedBranch (d : Duration) : FmtBranch :=
  if d.as_secs > 0 then FmtBranch.secs
  else if d.subsec_nanos > 1000000 then FmtBranch.millis
  else if d.subsec_nanos > 1000 then FmtBranch.micros
  else FmtBranch.nanos

/-- The whole duration expressed in nanoseconds. -/
def totalNanos (d : Duration) : Nat :=
  d.as_secs * 1000000000 + d.subsec_nanos

/-- Rendering of the exact value `k / 1000`, the integer-level counterpart
of `displayF64`. -/
def renderThousandths (k : Int) : String :=
  if k % 1000 = 0 then toString (k / 1000)
  else toString (k / 1000) ++ "." ++ stripZeros (pad3 (k % 1000))

/-- Integer-only mirror of `TimeFormat.fmt`, used to evaluate the embedding
on concrete durations (`ℚ` arithmetic is irreducible to the kernel).  The
numerators are the rounded thousandths of the fractional values, computed
with Nat division. -/
def fmtNat (d : Duration) (alternate : Bool) : String :=
  if d.as_secs > 0 then
    renderThousandths ((2 * totalNanos d + 1000000) / 2000000 : ℕ) ++
      (if !alternate then "s" else " seconds")
  else if d.subsec_nanos > 1000000 then
    renderThousandths ((2 * totalNanos d + 1000) / 2000 : ℕ) ++
      (if !alternate then "ms" else " milliseconds")
  else if d.subsec_nanos > 1000 then
    renderThousandths ((2 * totalNanos d + 1) / 2 : ℕ) ++
      (if !alternate then "µs" else " microseconds")
  else
    toString d.subsec_nanos ++ (if !alternate then "ns" else " nanoseconds")

lemma round3_floor (x : ℚ) (a b : ℕ) (hx : 0 ≤ x)
    (h : 1000 * x + 1 / 2 = (a : ℚ) / (b : ℚ)) :
    round_3_decimals x = ((a / b : ℕ) : ℚ) / 1000 := by
  unfold round_3_decimals roundTiesAway
  rw [if_pos (by positivity : (0 : ℚ) ≤ 1000 * x), h,
    Rat.floor_natCast_div_natCast, ← Int.natCast_div, Int.cast_natCast]

lemma displayF64_div1000 (k : ℕ) :
    displayF64 ((k : ℚ) / 1000) = renderThousandths (k : ℤ) := by
  unfold displayF64 renderThousandths
  have h : (1000 : ℚ) * ((k : ℚ) / 1000) = ((k : ℤ) : ℚ) := by
    push_cast
    ring
  rw [h, Int.floor_intCast]

lemma secs_render (d : Duration) :
    displayF64 (round_3_decimals (as_fractional_secs d)) =
      renderThousandths ((2 * totalNanos d + 1000000) / 2000000 : ℕ) := by
  rw [round3_floor (as_fractional_secs d) (2 * totalNanos d + 1000000) 2000000
      (by unfold as_fractional_secs; positivity)
      (by unfold as_fractional_secs totalNanos; push_cast; field_simp; ring),
    displayF64_div1000]

lemma millis_render (d : Duration) :
    displayF64 (round_3_decimals (as_fractional_millis d)) =
      renderThousandths ((2 * totalNanos d + 1000) / 2000 : ℕ) := by
  rw [round3_floor (as_fractional_millis d) (2 * totalNanos d + 1000) 2000
      (by unfold as_fractional_millis; positivity)
      (by unfold as_fractional_millis totalNanos; push_cast; field_simp; ring),
    displayF64_div1000]

lemma micros_render (d : Duration) :
    displayF64 (round_3_decimals (as_fractional_micros d)) =
      renderThousandths ((2 * totalNanos d + 1) / 2 : ℕ) := by
  rw [round3_floor (as_fractional_micros d) (2 * totalNanos d + 1) 2
      (by unfold as_fractional_micros; positivity)
      (by unfold as_fractional_micros totalNanos; push_cast; field_simp; ring),
    displayF64_div1000]

lemma fmt_eq_fmtNat (t : TimeFormat) (alt : Bool) :
    t.fmt alt = fmtNat t.dur alt := by
  unfold TimeFormat.fmt fmtNat
  split_ifs <;>
    simp [secs_render, millis_render, micros_render]

lemma roundTiesAway_nearest (q : ℚ) : |q - (roundTiesAway q : ℚ)| ≤ 1 / 2 := by
  unfold roundTiesAway
  split_ifs with h
  · rw [abs_le]
    constructor
    · linarith [Int.floor_le (q + 1 / 2)]
    · linarith [Int.lt_floor_add_one (q + 1 / 2)]
  · push_cast
    rw [abs_le]
    constructor
    · linarith [Int.lt_floor_add_one (-q + 1 / 2)]
    · linarith [Int.floor_le (-q + 1 / 2)]

lemma roundTiesAway_tie_nonneg (n : ℕ) :
    roundTiesAway ((n : ℚ) + 1 / 2) = (n : ℤ) + 1 := by
  unfold roundTiesAway
  rw [if_pos (by positivity)]
  have h : (n : ℚ) + 1 / 2 + 1 / 2 = ((n + 1 : ℕ) : ℚ) := by
    push_cast
    ring
  rw [h, Int.floor_natCast]
  push_cast
  ring

lemma roundTiesAway_tie_nonpos (n : ℕ) :
    roundTiesAway (-((n : ℚ) + 1 / 2)) = -((n : ℤ) + 1) := by
  unfold roundTiesAway
  have hpos : (0 : ℚ) < (n : ℚ) + 1 / 2 := by positivity
  rw [if_neg (by linarith), neg_neg]
  have h : (n : ℚ) + 1 / 2 + 1 / 2 = ((n + 1 : ℕ) : ℚ) := by
    push_cast
    ring
  rw [h, Int.floor_natCast]
  push_cast
  ring

lemma roundTiesAway_intCast (n : ℤ) : roundTiesAway (n : ℚ) = n := by
  unfold roundTiesAway
  split_ifs with h
  · rw [Int.floor_int_add]
    norm_num
  · rw [show -(n : ℚ) = ((-n : ℤ) : ℚ) by push_cast; ring, Int.floor_int_add]
    norm_num

/-- The spec's formula for seconds (§4.1): `seconds + subsec_nanos / 1e9`,
stated from the spec's words, independently of the implementation. -/
def spec_fractional_secs (seconds subsec : ℕ) : ℚ :=
  (seconds : ℚ) + (subsec : ℚ) / 1000000000

/-- The spec's formula for milliseconds (§4.1):
`seconds * 1e3 + subsec_nanos / 1e6`. -/
def spec_fractional_millis (seconds subsec : ℕ) : ℚ :=
  (seconds : ℚ) * 1000 + (subsec : ℚ) / 1000000

/-- The spec's formula for microseconds (§4.1):
`seconds * 1e6 + subsec_nanos / 1e3`. -/
def spec_fractional_micros (seconds subsec : ℕ) : ℚ :=
  (seconds : ℚ) * 1000000 + (subsec : ℚ) / 1000

/-- C1: the three converters are total pure functions returning exactly the
spec's computations: `as_fractional_secs = s + n / 1e9`,
`as_fractional_millis = s * 1e3 + n / 1e6`, and
`as_fractional_micros = s * 1e6 + n / 1e3`. -/
theorem converters_match_spec_formulas (d : Duration) :
    as_fractional_secs d = spec_fractional_secs d.as_secs d.subsec_nanos ∧
    as_fractional_millis d = spec_fractional_millis d.as_secs d.subsec_nanos ∧
    as_fractional_micros d = spec_fractional_micros d.as_secs d.subsec_nanos :=
  ⟨rfl, rfl, rfl⟩

/-- C2: the formatter selects its branch in order — seconds when
`as_secs > 0`, else milliseconds when `subsec_nanos > 1000000`, else
microseconds when `subsec_nanos > 1000`, else raw nanoseconds — with the
abbreviated/full suffix chosen by the alternate flag; and `(0s, 461930ns)`
formats as `"461.93µs"` abbreviated and `"461.93 microseconds"` full. -/
theorem fmt_branch_order (t : TimeFormat) (alt : Bool) :
    (0 < t.dur.as_secs →
      t.fmt alt = displayF64 (round_3_decimals (as_fractional_secs t.dur)) ++
        (if alt then " seconds" else "s")) ∧
    (t.dur.as_secs = 0 → 1000000 < t.dur.subsec_nanos →
      t.fmt alt = displayF64 (round_3_decimals (as_fractional_millis t.dur)) ++
        (if alt then " milliseconds" else "ms")) ∧
    (t.dur.as_secs = 0 → t.dur.subsec_nanos ≤ 1000000 → 1000 < t.dur.subsec_nanos →
      t.fmt alt = displayF64 (round_3_decimals (as_fractional_micros t.dur)) ++
        (if alt then " microseconds" else "µs")) ∧
    (t.dur.as_secs = 0 → t.dur.subsec_nanos ≤ 1000 →
      t.fmt alt = toString t.dur.subsec_nanos ++
        (if alt then " nanoseconds" else "ns")) ∧
    TimeFormat.fmt ⟨⟨0, 461930⟩⟩ false = "461.93µs" ∧
    TimeFormat.fmt ⟨⟨0, 461930⟩⟩ true = "461.93 microseconds" := by
  refine ⟨?_, ?_, ?_, ?_, ?_, ?_⟩
  · intro h
    cases alt <;> simp [TimeFormat.fmt, h]
  · intro h0 h1
    cases alt <;> simp [TimeFormat.fmt, h0, h1]
  · intro h0 h1 h2
    cases alt <;>
      simp [TimeFormat.fmt, h0, h2, show ¬ 1000000 < t.dur.subsec_nanos by omega]
  · intro h0 h1
    cases alt <;>
      simp [TimeFormat.fmt, h0, show ¬ 1000000 < t.dur.subsec_nanos by omega,
        show ¬ 1000 < t.dur.subsec_nanos by omega]
  · rw [fmt_eq_fmtNat]
    decide
  · rw [fmt_eq_fmtNat]
    decide

/-- Witness for C2: the seconds branch fires at `(3s, 0ns)` and the
nanoseconds branch at `(0s, 500ns)`. -/
theorem fmt_branch_order_witness :
    TimeFormat.fmt ⟨⟨3, 0⟩⟩ false =
      displayF64 (round_3_decimals (as_fractional_secs ⟨3, 0⟩)) ++ "s" ∧
    TimeFormat.fmt ⟨⟨0, 500⟩⟩ false = "500ns" := by
  constructor
  · have h := (fmt_branch_order ⟨⟨3, 0⟩⟩ false).1 (by decide)
    simpa using h
  · have h := (fmt_branch_order ⟨⟨0, 500⟩⟩ false).2.2.2.1 rfl (by decide)
    rw [h]
    decide

/-- C3: the unit thresholds are strict: exactly 1 ms renders in the
microseconds branch as `"1000µs"`, and exactly 1 µs renders in the
nanoseconds branch as `"1000ns"`. -/
theorem fmt_thresholds_strict :
    TimeFormat.fmt ⟨⟨0, 1000000⟩⟩ false = "1000µs" ∧
    TimeFormat.fmt ⟨⟨0, 1000⟩⟩ false = "1000ns" ∧
    selectedBranch ⟨0, 1000000⟩ = FmtBranch.micros ∧
    selectedBranch ⟨0, 1000⟩ = FmtBranch.nanos := by
  refine ⟨?_, ?_, by decide, by decide⟩ <;>
    · rw [fmt_eq_fmtNat]
      decide

/-- C4: `round_3_decimals` multiplies by 1000, rounds to the nearest
integer with ties away from zero, and divides by 1000; the interval
`(4s, 123456789ns)` accordingly formats as `"4.123s"`. -/
theorem round_3_decimals_half_away :
    (∀ x : ℚ, round_3_decimals x = (roundTiesAway (1000 * x) : ℚ) / 1000) ∧
    (∀ q : ℚ, |q - (roundTiesAway q : ℚ)| ≤ 1 / 2) ∧
    (∀ n : ℕ, roundTiesAway ((n : ℚ) + 1 / 2) = (n : ℤ) + 1) ∧
    (∀ n : ℕ, roundTiesAway (-((n : ℚ) + 1 / 2)) = -((n : ℤ) + 1)) ∧
    TimeFormat.fmt ⟨⟨4, 123456789⟩⟩ false = "4.123s" := by
  refine ⟨fun x => rfl, roundTiesAway_nearest, roundTiesAway_tie_nonneg,
    roundTiesAway_tie_nonpos, ?_⟩
  rw [fmt_eq_fmtNat]
  decide

/-- C5: in the nanoseconds branch the formatter prints the raw
`subsec_nanos` integer followed by the suffix, with no fractional
conversion or rounding. -/
theorem fmt_nanos_raw_integer (t : TimeFormat) (alt : Bool)
    (h0 : t.dur.as_secs = 0) (h1 : t.dur.subsec_nanos ≤ 1000) :
    t.fmt alt = toString t.dur.subsec_nanos ++
      (if alt then " nanoseconds" else "ns") := by
  cases alt <;>
    simp [TimeFormat.fmt, h0, show ¬ 1000000 < t.dur.subsec_nanos by omega,
      show ¬ 1000 < t.dur.subsec_nanos by omega]

/-- Witness for C5: `(0s, 500ns)` formats as `"500ns"`. -/
theorem fmt_nanos_raw_integer_witness :
    TimeFormat.fmt ⟨⟨0, 500⟩⟩ false = "500ns" := by
  rw [fmt_nanos_raw_integer ⟨⟨0, 500⟩⟩ false rfl (by decide)]
  decide

/-- C6: scaling by 1000 relates the converters exactly in the rational
model (hence within floating-point tolerance):
`as_fractional_secs * 1000 = as_fractional_millis` and
`as_fractional_millis * 1000 = as_fractional_micros`. -/
theorem fractional_scaling (d : Duration) :
    as_fractional_secs d * 1000 = as_fractional_millis d ∧
    as_fractional_millis d * 1000 = as_fractional_micros d := by
  unfold as_fractional_secs as_fractional_millis as_fractional_micros
  constructor <;> ring

/-- C7: `as_fractional_secs` is monotonically non-decreasing in each
component: fixing either component, a larger other component gives a
greater-or-equal result. -/
theorem as_fractional_secs_monotone (d e : Duration) :
    (d.as_secs = e.as_secs → d.subsec_nanos ≤ e.subsec_nanos →
      as_fractional_secs d ≤ as_fractional_secs e) ∧
    (d.subsec_nanos = e.subsec_nanos → d.as_secs ≤ e.as_secs →
      as_fractional_secs d ≤ as_fractional_secs e) := by
  unfold as_fractional_secs
  constructor
  · intro h1 h2
    rw [h1]
    gcongr
  · intro h1 h2
    rw [h1]
    gcongr

/-- Witness for C7: monotone in nanoseconds at fixed seconds, and in
seconds at fixed nanoseconds. -/
theorem as_fractional_secs_monotone_witness :
    as_fractional_secs ⟨1, 200⟩ ≤ as_fractional_secs ⟨1, 300⟩ ∧
    as_fractional_secs ⟨1, 300⟩ ≤ as_fractional_secs ⟨2, 300⟩ :=
  ⟨(as_fractional_secs_monotone ⟨1, 200⟩ ⟨1, 300⟩).1 rfl (by decide),
   (as_fractional_secs_monotone ⟨1, 300⟩ ⟨2, 300⟩).2 rfl (by decide)⟩

/-- C8: `round_3_decimals` is idempotent: applying it to any of its
results returns that result unchanged. -/
theorem round_3_decimals_idempotent (x : ℚ) :
    round_3_decimals (round_3_decimals x) = round_3_decimals x := by
  unfold round_3_decimals
  have h : (1000 : ℚ) * ((roundTiesAway (1000 * x) : ℚ) / 1000) =
      ((roundTiesAway (1000 * x) : ℤ) : ℚ) := by
    ring
  rw [h, roundTiesAway_intCast]

/-- C9: the formatter's only error condition is a sink write failure: the
result of `fmt` is exactly the sink's response to the single attempted
write (so a failure propagates unconditionally and uninspected), and if
every write succeeds then formatting succeeds. -/
theorem fmtTo_propagates (t : TimeFormat) (alt : Bool)
    (write : String → Except Unit Unit) :
    t.fmtTo alt write = write (t.fmt alt) ∧
    ((∀ s, write s = Except.ok ()) → t.fmtTo alt write = Except.ok ()) := by
  have h : t.fmtTo alt write = write (t.fmt alt) := by
    unfold TimeFormat.fmtTo TimeFormat.fmt
    split_ifs <;> rfl
  exact ⟨h, fun hok => h.trans (hok _)⟩

/-- Witness for C9: with an always-succeeding sink, formatting succeeds. -/
theorem fmtTo_propagates_witness :
    TimeFormat.fmtTo ⟨⟨0, 500⟩⟩ false (fun _ => Except.ok ()) =
      Except.ok () :=
  (fmtTo_propagates ⟨⟨0, 500⟩⟩ false (fun _ => Except.ok ())).2 (fun _ => rfl)

/-- C10: whenever the formatter takes the nanoseconds branch, the seconds
component is zero, so the printed `subsec_nanos` equals the whole duration
in nanoseconds. -/
theorem nanos_branch_total (d : Duration)
    (h : selectedBranch d = FmtBranch.nanos) :
    d.as_secs = 0 ∧ d.subsec_nanos = totalNanos d := by
  unfold selectedBranch at h
  split_ifs at h with h1 h2 h3
  refine ⟨by omega, ?_⟩
  unfold totalNanos
  omega

/-- Witness for C10: at `(0s, 500ns)` the nanoseconds branch fires and the
printed value is the whole duration. -/
theorem nanos_branch_total_witness :
    Duration.as_secs ⟨0, 500⟩ = 0 ∧
    Duration.subsec_nanos ⟨0, 500⟩ = totalNanos ⟨0, 500⟩ :=
  nanos_branch_total ⟨0, 500⟩ (by decide)
